import Mathlib

set_option maxRecDepth 8000

/-!
Verification of the Prow CI job-history ingestion pipeline.

Shallow embedding of the core pipeline of `src/list_failed_prs.py` (with the
shared helpers that also appear in `src/prow/prow_crawler.py` and
`src/prow/generate_gsutil_commands.py`): build-record extraction from the
dashboard page, the on-disk cache with its age-based validity rule, the
time-window filter, the per-job failure summary, and the multi-job batch loop.

Python dictionaries decoded from JSON are modelled by the `JValue` type and
association lists; machine-level side effects (wall clock, HTTP, the cache
directory) are modelled by an explicit `Env` record threaded through the
functions; `sys.exit` and ordinary Python exceptions are distinguished by the
two constructors of `PyErr`, because `except Exception` does not catch
`SystemExit`.
-/

/-! ## Character and string utilities -/

/-- Whether `pat` is an initial segment of `l`. -/
def startsWithChars : List Char → List Char → Bool
  | [], _ => true
  | _ :: _, [] => false
  | p :: ps, c :: cs => p == c && startsWithChars ps cs

/-- The suffix strictly after the first occurrence of `pat` in `l`
(Python `l.split(pat, 1)[1]`); `none` when `pat` does not occur. -/
def suffixAfterFirst (pat : List Char) : List Char → Option (List Char)
  | [] => none
  | c :: rest =>
    if startsWithChars pat (c :: rest) then some ((c :: rest).drop pat.length)
    else suffixAfterFirst pat rest

/-- Python substring containment `sub in s` (for nonempty `sub`). -/
def pyContains (s sub : String) : Bool :=
  (suffixAfterFirst sub.toList s.toList).isSome

/-- Replace every occurrence of the character `c` by the string `rep`
(Python `s.replace(c, rep)` for a one-character pattern). -/
def replaceChar (c : Char) (rep : List Char) : List Char → List Char
  | [] => []
  | x :: rest =>
    if x == c then rep ++ replaceChar c rep rest else x :: replaceChar c rep rest

/-- Python `s.rstrip('/')`. -/
def stripTrailingSlashes (l : List Char) : List Char :=
  (l.reverse.dropWhile (fun c => c == '/')).reverse

/-! ## JSON values (the result of `json.loads`) and Python dict semantics -/

/-- A decoded JSON value.  Numbers are modelled as integers: every numeric
field the pipeline reads (pull-request numbers) is an integer in the dashboard
data; pages containing fractional numbers are outside the model. -/
inductive JValue where
  | jnull
  | jbool (b : Bool)
  | jnum (n : Int)
  | jstr (s : String)
  | jarr (elems : List JValue)
  | jobj (fields : List (String × JValue))

/-- A Python dict decoded from a JSON object (one dashboard build record). -/
abbrev BuildDict := List (String × JValue)

/-- Python dict lookup: with duplicate keys `json.loads` keeps the last
binding, so the lookup returns the last matching value. -/
def lookupLast (fields : List (String × JValue)) (k : String) : Option JValue :=
  fields.foldl (fun acc kv => if kv.1 == k then some kv.2 else acc) none

/-- Python truthiness of a decoded JSON value. -/
def pyTruthy : JValue → Bool
  | .jnull => false
  | .jbool b => b
  | .jnum n => n != 0
  | .jstr s => s != ""
  | .jarr xs => !xs.isEmpty
  | .jobj fs => !fs.isEmpty

/-! ## A `json.loads` model (fuel-based recursive-descent parser) -/

/-- Skip JSON whitespace. -/
def skipWs : List Char → List Char
  | [] => []
  | c :: rest =>
    if c == ' ' || c == '\t' || c == '\n' || c == '\r' then skipWs rest
    else c :: rest

/-- Translation of a JSON string escape character. -/
def escChar (e : Char) : Option Char :=
  if e == '"' then some '"'
  else if e == '\\' then some '\\'
  else if e == '/' then some '/'
  else if e == 'n' then some '\n'
  else if e == 't' then some '\t'
  else if e == 'r' then some '\r'
  else if e == 'b' then some (Char.ofNat 8)
  else if e == 'f' then some (Char.ofNat 12)
  else none

/-- Parse the body of a JSON string (the opening quote already consumed). -/
def parseStringBody : Nat → List Char → Option (List Char × List Char)
  | 0, _ => none
  | _ + 1, [] => none
  | fuel + 1, c :: rest =>
    if c == '"' then some ([], rest)
    else if c == '\\' then
      match rest with
      | e :: r2 =>
        match escChar e with
        | some ch =>
          match parseStringBody fuel r2 with
          | some (s, r3) => some (ch :: s, r3)
          | none => none
        | none => none
      | [] => none
    else
      match parseStringBody fuel rest with
      | some (s, r3) => some (c :: s, r3)
      | none => none

/-- Consume a maximal run of decimal digits. -/
def munchDigits : List Char → Nat → Nat × List Char
  | [], acc => (acc, [])
  | c :: rest, acc =>
    if c.isDigit then munchDigits rest (acc * 10 + (c.toNat - 48))
    else (acc, c :: rest)

mutual

/-- Parse one JSON value (leading whitespace allowed). -/
def parseValue : Nat → List Char → Option (JValue × List Char)
  | 0, _ => none
  | fuel + 1, cs0 =>
    match skipWs cs0 with
    | [] => none
    | c :: rest =>
      if c == '{' then
        match skipWs rest with
        | '}' :: r2 => some (.jobj [], r2)
        | r2 =>
          match parseObjItems fuel r2 with
          | some (fs, r3) => some (.jobj fs, r3)
          | none => none
      else if c == '[' then
        match skipWs rest with
        | ']' :: r2 => some (.jarr [], r2)
        | r2 =>
          match parseArrItems fuel r2 with
          | some (vs, r3) => some (.jarr vs, r3)
          | none => none
      else if c == '"' then
        match parseStringBody (rest.length + 1) rest with
        | some (chars, r2) => some (.jstr (String.mk chars), r2)
        | none => none
      else if c == '-' then
        match rest with
        | d :: _ =>
          if d.isDigit then
            match munchDigits rest 0 with
            | (n, r2) => some (.jnum (-(n : Int)), r2)
          else none
        | [] => none
      else if c.isDigit then
        match munchDigits (c :: rest) 0 with
        | (n, r2) => some (.jnum ((n : Int)), r2)
      else if startsWithChars "true".toList (c :: rest) then
        some (.jbool true, (c :: rest).drop 4)
      else if startsWithChars "false".toList (c :: rest) then
        some (.jbool false, (c :: rest).drop 5)
      else if startsWithChars "null".toList (c :: rest) then
        some (.jnull, (c :: rest).drop 4)
      else none

/-- Parse the members of a nonempty JSON object (after the opening brace). -/
def parseObjItems : Nat → List Char → Option (List (String × JValue) × List Char)
  | 0, _ => none
  | fuel + 1, cs =>
    match skipWs cs with
    | '"' :: rest =>
      match parseStringBody (rest.length + 1) rest with
      | some (kcs, r2) =>
        match skipWs r2 with
        | ':' :: r3 =>
          match parseValue fuel r3 with
          | some (v, r4) =>
            match skipWs r4 with
            | ',' :: r5 =>
              match parseObjItems fuel r5 with
              | some (fs, r6) => some ((String.mk kcs, v) :: fs, r6)
              | none => none
            | '}' :: r5 => some ([(String.mk kcs, v)], r5)
            | _ => none
          | none => none
        | _ => none
      | none => none
    | _ => none

/-- Parse the elements of a nonempty JSON array (after the opening bracket). -/
def parseArrItems : Nat → List Char → Option (List JValue × List Char)
  | 0, _ => none
  | fuel + 1, cs =>
    match parseValue fuel cs with
    | some (v, r2) =>
      match skipWs r2 with
      | ',' :: r3 =>
        match parseArrItems fuel r3 with
        | some (vs, r4) => some (v :: vs, r4)
        | none => none
      | ']' :: r3 => some ([v], r3)
      | _ => none
    | none => none

end

/-- Model of `json.loads`: parse a whole string as one JSON document. -/
def json_loads (s : String) : Option JValue :=
  match parseValue (2 * s.length + 8) s.toList with
  | some (v, rest) =>
    match skipWs rest with
    | [] => some v
    | _ => none
  | none => none

/-! ## Python error model

`sys.exit(code)` raises `SystemExit`, which derives from `BaseException` and is
NOT caught by `except Exception`; ordinary exceptions (`AttributeError`,
`TypeError`, ...) are. -/

inductive PyErr where
  | systemExit (code : Nat)
  | exc (msg : String)

/-! ## The `allBuilds` regex and `extract_builds_json`

`re.search(r'var allBuilds = (.+);', html)`: `.` matches every character
except a newline, so a match lives on one line; the greedy `.+` captures up to
the last `';'` of that line, and `re.search` takes the leftmost position where
a full match exists. -/

/-- Index of the last `';'` in a list of characters. -/
def lastIdxOfSemi : List Char → Option Nat
  | [] => none
  | c :: rest =>
    match lastIdxOfSemi rest with
    | some i => some (i + 1)
    | none => if c == ';' then some 0 else none

/-- Greedy capture of `(.+);` starting right after the literal prefix:
the current line up to its last `';'`, requiring at least one captured
character. -/
def captureAllBuilds (after : List Char) : Option (List Char) :=
  let seg := after.takeWhile (fun c => c != '\n')
  match lastIdxOfSemi seg with
  | some i => if 1 ≤ i then some (seg.take i) else none
  | none => none

/-- Leftmost match of `var allBuilds = (.+);`, returning the captured group. -/
def searchAllBuilds : List Char → Option (List Char)
  | [] => none
  | c :: rest =>
    if startsWithChars "var allBuilds = ".toList (c :: rest) then
      match captureAllBuilds ((c :: rest).drop 16) with
      | some cap => some cap
      | none => searchAllBuilds rest
    else searchAllBuilds rest

/-- Model of `ProwJobAnalyzer.extract_builds_json` (identical in `ProwJobCrawler`):
locate the `allBuilds` assignment and decode its JSON; a missing assignment or
malformed JSON prints an error and calls `sys.exit(1)`. -/
def extract_builds_json (html_content : String) : Except PyErr JValue :=
  match searchAllBuilds html_content.toList with
  | none => .error (.systemExit 1)
  | some cap =>
    match json_loads (String.mk cap) with
    | some v => .ok v
    | none => .error (.systemExit 1)

/-! ## Timestamps

`parse_job_start_time` calls
`datetime.fromisoformat(start_time_str.replace('Z', '+00:00'))`.  The model
covers ISO-8601 date-times carrying an explicit UTC offset — the dashboard's
`Started` format per the data model ("ISO-8601 with UTC offset"); every other
string is treated as unparseable and maps to `none`.  Instants are epoch
seconds. -/

/-- Decimal value of a digit character. -/
def digitVal (c : Char) : Option Nat :=
  if c.isDigit then some (c.toNat - 48) else none

/-- Parse exactly two digits. -/
def parse2Digits : List Char → Option (Nat × List Char)
  | a :: b :: rest =>
    match digitVal a, digitVal b with
    | some x, some y => some (10 * x + y, rest)
    | _, _ => none
  | _ => none

/-- Parse exactly four digits. -/
def parse4Digits : List Char → Option (Nat × List Char)
  | a :: b :: c :: d :: rest =>
    match digitVal a, digitVal b, digitVal c, digitVal d with
    | some w, some x, some y, some z => some (1000 * w + 100 * x + 10 * y + z, rest)
    | _, _, _, _ => none
  | _ => none

/-- Require a specific character. -/
def expectChar (c : Char) : List Char → Option (List Char)
  | x :: rest => if x == c then some rest else none
  | [] => none

/-- Days in a month of the proleptic Gregorian calendar. -/
def daysInMonth (y : Int) (m : Nat) : Nat :=
  if m == 2 then (if y % 4 == 0 && (y % 100 != 0 || y % 400 == 0) then 29 else 28)
  else if m == 4 || m == 6 || m == 9 || m == 11 then 30 else 31

/-- Days from the Unix epoch to a civil date (standard civil-calendar
conversion). -/
def daysFromCivil (y : Int) (m d : Nat) : Int :=
  let y2 : Int := if m ≤ 2 then y - 1 else y
  let era : Int := Int.fdiv y2 400
  let yoe : Int := y2 - era * 400
  let mShift : Int := if m > 2 then (m : Int) - 3 else (m : Int) + 9
  let doy : Int := (153 * mShift + 2) / 5 + (d : Int) - 1
  let doe : Int := yoe * 365 + yoe / 4 - yoe / 100 + doy
  era * 146097 + doe - 719468

/-- Model of `datetime.fromisoformat` on `YYYY-MM-DDTHH:MM:SS±HH:MM` strings, as epoch
seconds (UTC). -/
def fromisoformatAware (cs : List Char) : Option Int :=
  match parse4Digits cs with
  | none => none
  | some (y, cs) =>
    match expectChar '-' cs with
    | none => none
    | some cs =>
      match parse2Digits cs with
      | none => none
      | some (mo, cs) =>
        match expectChar '-' cs with
        | none => none
        | some cs =>
          match parse2Digits cs with
          | none => none
          | some (d, cs) =>
            match expectChar 'T' cs with
            | none => none
            | some cs =>
              match parse2Digits cs with
              | none => none
              | some (h, cs) =>
                match expectChar ':' cs with
                | none => none
                | some cs =>
                  match parse2Digits cs with
                  | none => none
                  | some (mi, cs) =>
                    match expectChar ':' cs with
                    | none => none
                    | some cs =>
                      match parse2Digits cs with
                      | none => none
                      | some (se, cs) =>
                        match cs with
                        | sgn :: cs =>
                          if sgn == '+' || sgn == '-' then
                            match parse2Digits cs with
                            | none => none
                            | some (oh, cs) =>
                              match expectChar ':' cs with
                              | none => none
                              | some cs =>
                                match parse2Digits cs with
                                | none => none
                                | some (om, cs) =>
                                  if cs = [] ∧ 1 ≤ mo ∧ mo ≤ 12 ∧ 1 ≤ d ∧
                                      d ≤ daysInMonth (y : Int) mo ∧ h ≤ 23 ∧
                                      mi ≤ 59 ∧ se ≤ 59 ∧ oh ≤ 23 ∧ om ≤ 59 then
                                    let sign : Int := if sgn == '-' then -1 else 1
                                    some (daysFromCivil (y : Int) mo d * 86400 +
                                      (h : Int) * 3600 + (mi : Int) * 60 + (se : Int) -
                                      sign * ((oh : Int) * 60 + (om : Int)) * 60)
                                  else none
                          else none
                        | [] => none

/-- Model of `parse_job_start_time`: replace `'Z'` by `'+00:00'` and parse (epoch
seconds); unparseable strings give `none`. -/
def parse_job_start_time (s : String) : Option Int :=
  fromisoformatAware (replaceChar 'Z' "+00:00".toList s.toList)

/-- Model of `is_within_time_window`: `False` for an empty/`'Unknown'`/unparseable
start string, otherwise `started >= now - hours_back hours` (the code reads
`datetime.now(timezone.utc)` at call time; it is passed here as `now`). -/
def is_within_time_window (start_time_str : String) (hours_back now : Int) : Bool :=
  if start_time_str == "" || start_time_str == "Unknown" then false
  else
    match parse_job_start_time start_time_str with
    | none => false
    | some t => decide (now - hours_back * 3600 ≤ t)

/-- The time-window check applied to a raw `Started` value: a non-string value
is truthy or falsy but never parses (`.replace` raises `AttributeError`, which
`parse_job_start_time` catches), so it is always out of the window. -/
def is_within_time_window_v (v : JValue) (hours_back now : Int) : Bool :=
  match v with
  | .jstr s => is_within_time_window s hours_back now
  | _ => false

/-! ## The on-disk cache -/

/-- What a read of a cache file can see: an unreadable file (`IOError`), a
file whose text is not JSON (`json.JSONDecodeError`), or a decoded JSON
document. -/
inductive CacheFileContent where
  | unreadable
  | malformed
  | value (v : JValue)

/-- One cache file: its modification time (epoch seconds) and its content. -/
structure CacheFile where
  mtime : Int
  content : CacheFileContent

/-- The cache directory, keyed by sanitized file stem. -/
abbrev CacheMap := List (String × CacheFile)

/-- Lookup of a cache file by key. -/
def cacheGet (m : CacheMap) (key : String) : Option CacheFile :=
  match m with
  | [] => none
  | (k, f) :: rest => if k == key then some f else cacheGet rest key

/-- Overwrite (or create) the cache file under `key`. -/
def cachePutEntry (m : CacheMap) (key : String) (f : CacheFile) : CacheMap :=
  match m with
  | [] => [(key, f)]
  | (k, g) :: rest =>
    if k == key then (k, f) :: rest else (k, g) :: cachePutEntry rest key f

/-- A character kept verbatim by the cache-key sanitizer (`\w` or `-`). -/
def wordChar (c : Char) : Bool :=
  c.isAlphanum || c == '_' || c == '-'

/-- Model of `re.sub(r'[^\w\-]', '_', job_name)`: the safe cache file stem. -/
def safe_job_name (job_name : String) : String :=
  String.mk (job_name.toList.map (fun c => if wordChar c then c else '_'))

/-- Model of `is_cache_valid`: the file exists and
`now - mtime < timedelta(hours=max_age_hours)` (strict). -/
def is_cache_valid (file? : Option CacheFile) (now max_age_hours : Int) : Bool :=
  match file? with
  | none => false
  | some f => decide (now - f.mtime < max_age_hours * 3600)

/-! ## The environment

`Env` packages the machine state the pipeline reads: the wall clock, the HTTP
responder (`some body` for a 2xx response, `none` for any
`requests.RequestException`, including timeouts and non-2xx after
`raise_for_status`), the BeautifulSoup-based `extract_artifacts_url` (an
external HTML-parsing library, left abstract as a function of the page text),
and the cache directory. -/

structure Env where
  now : Int
  http : String → Option String
  extractArtifacts : String → Option String
  cache : CacheMap

def BASE_URL : String :=
  "https://prow.ci.openshift.org/job-history/gs/test-platform-results/logs/"

def PROW_BASE_URL : String := "https://prow.ci.openshift.org"

/-- Model of `urljoin(BASE_URL, job_name)` for a plain job name. -/
def job_url (job_name : String) : String := BASE_URL ++ job_name

/-- Model of `load_cached_job_data`: a `none` result stands for Python `None`
(missing, stale, unreadable or malformed file, or a stored JSON `null` under
`builds`, which decodes to Python `None` and so makes the caller's
`builds is None` test refetch); a decoded non-dict document makes
`data.get('builds', [])` raise `AttributeError`, which the function's
`except (IOError, json.JSONDecodeError)` does not catch. -/
def load_cached_job_data (env : Env) (job_name : String) : Except PyErr (Option JValue) :=
  let file? := cacheGet env.cache (safe_job_name job_name)
  if is_cache_valid file? env.now 1 then
    match file? with
    | some f =>
      match f.content with
      | .unreadable => .ok none
      | .malformed => .ok none
      | .value v =>
        match v with
        | .jobj fields =>
          match (lookupLast fields "builds").getD (.jarr []) with
          | .jnull => .ok none
          | b => .ok (some b)
        | _ => .error (.exc "AttributeError")
    | none => .ok none
  else .ok none

/-- Model of `save_job_data_to_cache`: overwrite the job's cache file with a fresh
document; `cached_at` stores the current time (the code writes
`datetime.now().isoformat()`, a value that is never read back, modelled as the
epoch number). -/
def save_job_data_to_cache (env : Env) (job_name : String) (builds : JValue) : CacheMap :=
  cachePutEntry env.cache (safe_job_name job_name)
    { mtime := env.now,
      content := .value (.jobj
        [("job_name", .jstr job_name), ("cached_at", .jnum env.now),
         ("builds", builds)]) }

/-- Model of `ProwJobAnalyzer.fetch_job_history`: `GET` of the job-history page; any
`requests.RequestException` prints an error and calls `sys.exit(1)`. -/
def fetch_job_history (env : Env) (job_name : String) : Except PyErr String :=
  match env.http (job_url job_name) with
  | some body => .ok body
  | none => .error (.systemExit 1)

/-- Model of `ProwJobAnalyzer.fetch_spyglass_page`: `GET` of the build-detail page
resolved against the Prow origin; failures are caught and become `None`. -/
def fetch_spyglass_page (env : Env) (spyglass_link : String) : Option String :=
  env.http (PROW_BASE_URL ++ spyglass_link)

/-! ## The per-job pipeline -/

/-- Model of `build.get('Result') == 'FAILURE'`: only the exact string compares
equal. -/
def isFailureResult (b : BuildDict) : Bool :=
  match lookupLast b "Result" with
  | some (.jstr s) => s == "FAILURE"
  | _ => false

/-- Model of `ProwJobAnalyzer.get_failed_jobs` (identical in `ProwJobCrawler`): the
loop keeping builds whose `Result` is `'FAILURE'`, in order. -/
def get_failed_jobs : List BuildDict → List BuildDict
  | [] => []
  | b :: rest =>
    if isFailureResult b then b :: get_failed_jobs rest else get_failed_jobs rest

/-- View a list of decoded JSON values as build dicts; a non-dict element
makes the pipeline's `build.get` raise `AttributeError`. -/
def asBuildDicts : List JValue → Except PyErr (List BuildDict)
  | [] => .ok []
  | .jobj fs :: rest =>
    match asBuildDicts rest with
    | .ok bs => .ok (fs :: bs)
    | .error e => .error e
  | _ :: _ => .error (.exc "AttributeError")

/-- View a decoded JSON document as the list of build dicts the pipeline
iterates over; iterating a non-list raises `TypeError`. -/
def asBuildList : JValue → Except PyErr (List BuildDict)
  | .jarr xs => asBuildDicts xs
  | _ => .error (.exc "TypeError")

/-- The loop filtering failed builds by
`is_within_time_window(job.get('Started', 'Unknown'), hours_back)`. -/
def filter_failed_in_window (now hours_back : Int) : List BuildDict → List BuildDict
  | [] => []
  | j :: rest =>
    if is_within_time_window_v ((lookupLast j "Started").getD (.jstr "Unknown")) hours_back now then
      j :: filter_failed_in_window now hours_back rest
    else filter_failed_in_window now hours_back rest

/-- Model of `[pull.get('number') for pull in pulls if pull.get('number')]`: keep the
truthy `number` values; a non-dict pull raises `AttributeError`. -/
def pullNumbers : List JValue → Except PyErr (List JValue)
  | [] => .ok []
  | .jobj pf :: rest =>
    match pullNumbers rest with
    | .ok tail =>
      let n := (lookupLast pf "number").getD .jnull
      .ok (if pyTruthy n then n :: tail else tail)
    | .error e => .error e
  | _ :: _ => .error (.exc "AttributeError")

/-- The `Refs`/`pulls` extraction for the latest failed build: falsy `Refs`
yields no numbers; a truthy non-dict `Refs` raises `AttributeError`; a
non-list `pulls` raises `TypeError`. -/
def latest_pr_numbers (latest : BuildDict) : Except PyErr (List JValue) :=
  let refs := (lookupLast latest "Refs").getD (.jobj [])
  if pyTruthy refs then
    match refs with
    | .jobj rf =>
      match (lookupLast rf "pulls").getD (.jarr []) with
      | .jarr ps => pullNumbers ps
      | _ => .error (.exc "TypeError")
    | _ => .error (.exc "AttributeError")
  else .ok []

/-- The artifacts/spyglass URL computation for the latest failed build:
a falsy `SpyglassLink` leaves both URLs empty; otherwise the detail page is
fetched (failures become `None`, downgrading `artifacts_url` to `''`) and
`extract_artifacts_url(...) or ''` is applied; a truthy non-string link makes
`urljoin` raise `TypeError`. -/
def spyglass_calc (env : Env) (latest : BuildDict) : Except PyErr (String × String) :=
  match (lookupLast latest "SpyglassLink").getD (.jstr "") with
  | .jstr s =>
    if s == "" then .ok ("", "")
    else
      let au :=
        match fetch_spyglass_page env s with
        | none => ""
        | some html => (env.extractArtifacts html).getD ""
      .ok (au, PROW_BASE_URL ++ s)
  | v => if pyTruthy v then .error (.exc "TypeError") else .ok ("", "")

/-- The `latest_failed_info` record built by `count_failed_jobs_in_window`. -/
structure LatestFailedInfo where
  build_id : JValue
  started : JValue
  duration : JValue
  spyglass_url : String
  artifacts_url : String
  pr_numbers : List JValue
  result : JValue

/-- Build `latest_failed_info` from the in-window failed builds: `None` when
the list is empty, otherwise the enrichment of its first element. -/
def latest_failed_calc (env : Env) : List BuildDict → Except PyErr (Option LatestFailedInfo)
  | [] => .ok none
  | latest :: _ =>
    match spyglass_calc env latest with
    | .error e => .error e
    | .ok (artifacts_url, spyglass_url) =>
      match latest_pr_numbers latest with
      | .error e => .error e
      | .ok prs =>
        .ok (some
          { build_id := (lookupLast latest "ID").getD (.jstr "Unknown"),
            started := (lookupLast latest "Started").getD (.jstr "Unknown"),
            duration := (lookupLast latest "Duration").getD (.jstr "Unknown"),
            spyglass_url := spyglass_url,
            artifacts_url := artifacts_url,
            pr_numbers := prs,
            result := (lookupLast latest "Result").getD (.jstr "Unknown") })

/-- One entry of `failure_details`. -/
structure FailDetail where
  build_id : JValue
  started : JValue
  duration : JValue
  result : JValue

/-- The `failure_details` projection of one in-window failed build. -/
def mk_fail_detail (j : BuildDict) : FailDetail :=
  { build_id := (lookupLast j "ID").getD (.jstr "Unknown"),
    started := (lookupLast j "Started").getD (.jstr "Unknown"),
    duration := (lookupLast j "Duration").getD (.jstr "Unknown"),
    result := (lookupLast j "Result").getD (.jstr "Unknown") }

/-- The per-job summary dict returned by `count_failed_jobs_in_window`. -/
structure Summary where
  job_name : String
  total_failures : Nat
  latest_failed : Option LatestFailedInfo
  failure_details : List FailDetail

/-- The summary returned on the degraded (`except Exception`) path. -/
def zero_summary (job_name : String) : Summary :=
  { job_name := job_name, total_failures := 0, latest_failed := none,
    failure_details := [] }

/-- The summarizing part of `count_failed_jobs_in_window` (after builds are in
hand): select failures, filter by the window, enrich the latest, assemble the
summary. -/
def summarize_builds (env : Env) (job_name : String) (hours_back : Int)
    (builds : JValue) : Except PyErr Summary :=
  match asBuildList builds with
  | .error e => .error e
  | .ok bl =>
    let inWindow := filter_failed_in_window env.now hours_back (get_failed_jobs bl)
    match latest_failed_calc env inWindow with
    | .error e => .error e
    | .ok latest? =>
      .ok { job_name := job_name, total_failures := inWindow.length,
            latest_failed := latest?, failure_details := inWindow.map mk_fail_detail }

/-- The cache/fetch part shared verbatim by `count_failed_jobs_in_window` and
`get_latest_failed_job`: consult the cache when `use_cache`, else fetch the
dashboard page and extract, writing the cache when `use_cache`.  Returns the
builds document, the resulting cache directory, and the list of dashboard
URLs actually requested. -/
def fetch_builds_phase (env : Env) (job_name : String) (use_cache : Bool) :
    Except PyErr (JValue × CacheMap × List String) :=
  match (if use_cache then load_cached_job_data env job_name else .ok none) with
  | .error e => .error e
  | .ok (some b) => .ok (b, env.cache, [])
  | .ok none =>
    match fetch_job_history env job_name with
    | .error e => .error e
    | .ok html =>
      match extract_builds_json html with
      | .error e => .error e
      | .ok v =>
        .ok (v, (if use_cache then save_job_data_to_cache env job_name v else env.cache),
             [job_url job_name])

/-- Model of `count_failed_jobs_in_window`: the whole body runs under
`try ... except Exception`, which downgrades ordinary exceptions to the
zero-failure summary but does not catch the `SystemExit` raised by
`fetch_job_history` / `extract_builds_json`.  Returns the summary together
with the cache directory as left on disk. -/
def count_failed_jobs_in_window (env : Env) (job_name : String) (hours_back : Int)
    (use_cache : Bool) : Except PyErr (Summary × CacheMap) :=
  match fetch_builds_phase env job_name use_cache with
  | .error (.systemExit c) => .error (.systemExit c)
  | .error (.exc _) => .ok (zero_summary job_name, env.cache)
  | .ok (builds, cache2, _) =>
    match summarize_builds env job_name hours_back builds with
    | .error (.systemExit c) => .error (.systemExit c)
    | .error (.exc _) => .ok (zero_summary job_name, cache2)
    | .ok s => .ok (s, cache2)

/-! ## The multi-job batch -/

/-- Model of `construct_full_job_name`. -/
def construct_full_job_name (job_name release_version : String) : String :=
  "periodic-ci-openshift-microshift-release-" ++ release_version ++
    "-periodics-" ++ job_name

/-- The loop of `get_multiple_periodic_jobs_counts` over fully-qualified job
names, threading the cache directory; an uncaught `SystemExit` from one job
terminates the process, losing every summary. -/
def run_job_counts (hours_back : Int) (use_cache : Bool) :
    Env → List String → Except PyErr (List Summary × CacheMap)
  | env, [] => .ok ([], env.cache)
  | env, j :: rest =>
    match count_failed_jobs_in_window env j hours_back use_cache with
    | .error e => .error e
    | .ok (s, c2) =>
      match run_job_counts hours_back use_cache { env with cache := c2 } rest with
      | .error e => .error e
      | .ok (ss, c3) => .ok (s :: ss, c3)

/-- Model of `get_multiple_periodic_jobs_counts` for a given list of short job names
(the job-list provider is an external collaborator): qualify each name and
count its failures in sequence. -/
def get_multiple_periodic_jobs_counts (env : Env) (release_version : String)
    (job_names : List String) (hours_back : Int) (use_cache : Bool) :
    Except PyErr (List Summary × CacheMap) :=
  run_job_counts hours_back use_cache env
    (job_names.map (fun j => construct_full_job_name j release_version))

/-! ## Artifact URL to GCS path -/

/-- Model of `convert_artifacts_url_to_gcs_path` (identical in
`ProwJobCrawler.convert_artifacts_url_to_gcs_path` and in
`generate_gsutil_commands.py`): when the URL contains both `'gcsweb-ci'` and
`'/gcs/'`, everything after the first `'/gcs/'` — trailing slashes stripped —
becomes a `gs://` path; otherwise `None`. -/
def convert_artifacts_url_to_gcs_path (artifacts_url : String) : Option String :=
  if pyContains artifacts_url "gcsweb-ci" && pyContains artifacts_url "/gcs/" then
    match suffixAfterFirst "/gcs/".toList artifacts_url.toList with
    | some part => some ("gs://" ++ String.mk (stripTrailingSlashes part))
    | none => none
  else none

/-! ## General lemmas about the embedded operations -/

/-- Feeding a list of decoded build objects to the pipeline succeeds and
yields exactly those dicts. -/
theorem asBuildDicts_map_jobj (bl : List BuildDict) :
    asBuildDicts (bl.map JValue.jobj) = .ok bl := by
  induction bl with
  | nil => rfl
  | cons b rest ih => simp [asBuildDicts, ih]

/-- A JSON array of build objects is exactly the list of its dicts. -/
theorem asBuildList_jarr_map (bl : List BuildDict) :
    asBuildList (.jarr (bl.map JValue.jobj)) = .ok bl := by
  simp [asBuildList, asBuildDicts_map_jobj]

/-- The `get_failed_jobs` loop is the filter by `Result == 'FAILURE'`. -/
theorem get_failed_jobs_eq_filter (bl : List BuildDict) :
    get_failed_jobs bl = bl.filter isFailureResult := by
  induction bl with
  | nil => rfl
  | cons b rest ih => simp only [get_failed_jobs, List.filter_cons, ih]

/-- The time-window predicate of one build record. -/
def in_window_pred (now hours_back : Int) (j : BuildDict) : Bool :=
  is_within_time_window_v ((lookupLast j "Started").getD (.jstr "Unknown")) hours_back now

/-- The window loop is the filter by the time-window predicate, hence
preserves the original order. -/
theorem filter_failed_eq_filter (now hours_back : Int) (l : List BuildDict) :
    filter_failed_in_window now hours_back l = l.filter (in_window_pred now hours_back) := by
  induction l with
  | nil => rfl
  | cons j rest ih =>
    simp only [filter_failed_in_window, List.filter_cons, in_window_pred, ih]

/-- Writing a cache entry makes it readable under its key. -/
theorem cacheGet_cachePutEntry (m : CacheMap) (k : String) (f : CacheFile) :
    cacheGet (cachePutEntry m k f) k = some f := by
  induction m with
  | nil => simp [cachePutEntry, cacheGet]
  | cons kg rest ih =>
    obtain ⟨k2, g⟩ := kg
    unfold cachePutEntry
    by_cases h : k2 == k
    · simp [cacheGet, h]
    · simp only [h]
      simp [cacheGet, h, ih]

/-- The enriched latest failure exists exactly when the in-window failure
list is nonempty. -/
theorem latest_failed_calc_isSome (env : Env) (l : List BuildDict)
    (o : Option LatestFailedInfo) (h : latest_failed_calc env l = .ok o) :
    o.isSome = true ↔ l ≠ [] := by
  cases l with
  | nil =>
    simp only [latest_failed_calc] at h
    injection h with h2
    subst h2
    simp
  | cons x rest =>
    simp only [latest_failed_calc] at h
    cases hsp : spyglass_calc env x with
    | error e => rw [hsp] at h; cases h
    | ok p =>
      obtain ⟨au, su⟩ := p
      rw [hsp] at h
      cases hpr : latest_pr_numbers x with
      | error e => rw [hpr] at h; cases h
      | ok prs =>
        rw [hpr] at h
        injection h with h2
        subst h2
        simp
/-! ## Concrete fixtures used by the claim theorems -/

/-- A dashboard page whose build history is the empty array. -/
def pageEmptyBuilds : String := "var allBuilds = [];"

/-- A page that does not contain the `allBuilds` assignment. -/
def pageNoBuilds : String := "no builds data here"

/-- A page embedding one failed build. -/
def pageOneFailure : String :=
  "<html><script>var allBuilds = [\x7b\"ID\":\"9\",\"Result\":\"FAILURE\",\"Started\":\"2025-10-21T06:00:00Z\"\x7d];</script></html>"

/-- A failed build inside the 12-hour window relative to
2025-10-21T12:00:00Z, with a detail link and one related pull request. -/
def bFail : BuildDict :=
  [("ID", .jstr "100"), ("Result", .jstr "FAILURE"),
   ("Started", .jstr "2025-10-21T06:00:00Z"),
   ("SpyglassLink", .jstr "/view/gs/x/100"),
   ("Refs", .jobj [("pulls", .jarr [.jobj [("number", .jnum 42)]])])]

/-- A successful build (not a failure). -/
def bPass : BuildDict :=
  [("ID", .jstr "101"), ("Result", .jstr "SUCCESS"),
   ("Started", .jstr "2025-10-21T07:00:00Z")]

/-- A failed build outside the 12-hour window. -/
def bOld : BuildDict :=
  [("ID", .jstr "90"), ("Result", .jstr "FAILURE"),
   ("Started", .jstr "2025-10-19T06:00:00Z")]

/-- Environment for the three-job batch: job-b's dashboard page lacks the
`allBuilds` assignment, the other pages are fine. -/
def envBatch : Env :=
  { now := 1761048000,
    http := fun u =>
      if u = job_url (construct_full_job_name "job-b" "4.21") then some pageNoBuilds
      else some pageEmptyBuilds,
    extractArtifacts := fun _ => none,
    cache := [] }

/-- Environment with an empty cache whose every HTTP request fails. -/
def envOffline : Env :=
  { now := 1761048000, http := fun _ => none, extractArtifacts := fun _ => none,
    cache := [] }

/-- A fresh cache file written at time 0 holding one build. -/
def cacheEntryT : CacheFile :=
  ⟨0, .value (.jobj [("builds", .jarr [.jobj [("ID", .jstr "1")]])])⟩

/-- The cache directory 59 minutes after `cacheEntryT` was written. -/
def env59 : Env :=
  { now := 3540, http := fun _ => none, extractArtifacts := fun _ => none,
    cache := [("somejob", cacheEntryT)] }

/-- The cache directory 61 minutes after `cacheEntryT` was written. -/
def env61 : Env :=
  { now := 3660, http := fun _ => none, extractArtifacts := fun _ => none,
    cache := [("somejob", cacheEntryT)] }

/-! ## Claims -/

/-- C1: the claim says a fetch/extraction failure of one job in a multi-job
batch leaves the batch intact (three summaries, the failed job zero-failure,
`failed=1, succeeded=2`).  Evaluating the aggregator at the failing input —
three jobs where job-b's dashboard page lacks the `allBuilds` assignment —
shows the opposite: `extract_builds_json` calls `sys.exit(1)`, `SystemExit`
is not an `Exception`, so the per-job `except Exception` handler (whose own
warning message documents the intended per-job downgrade) never fires and the
whole batch terminates with no summaries; a one-job batch over the same
environment succeeds, isolating job-b's page as the cause. -/
theorem C1_batch_aborted_by_single_extraction_failure :
    extract_builds_json pageNoBuilds = .error (.systemExit 1) ∧
    get_multiple_periodic_jobs_counts envBatch "4.21" ["job-a"] 12 false
      = .ok ([zero_summary (construct_full_job_name "job-a" "4.21")], []) ∧
    get_multiple_periodic_jobs_counts envBatch "4.21" ["job-a", "job-b", "job-c"] 12 false
      = .error (.systemExit 1) :=
  ⟨rfl, rfl, rfl⟩

/-- C4 counterexample: a cache entry written at T = 0 and read at
now = 3600 s has age exactly the configured 1-hour maximum; its age does not
exceed the maximum, yet `is_cache_valid` already rejects it (the code tests
`file_age < timedelta(hours=1)` strictly), contradicting the claim's
"invalid exactly once its age exceeds the configured maximum age". -/
theorem C4_exact_age_counterexample :
    is_cache_valid (some cacheEntryT) 3600 1 = false ∧
    ¬ ((3600 : Int) - cacheEntryT.mtime > 1 * 3600) :=
  ⟨rfl, by decide⟩

/-- C4 amended: an entry is valid exactly while its age is strictly below the
maximum age (so it is invalid as soon as the age reaches the maximum, not
only once it exceeds it); concretely, the entry written at T = 0 is returned
by a cache read at T + 59 min and not returned at T + 61 min, although the
file is still present in the cache directory. -/
theorem C4_staleness_amended (f : CacheFile) (now max_age_hours : Int) :
    (is_cache_valid (some f) now max_age_hours = true ↔
      now - f.mtime < max_age_hours * 3600) ∧
    load_cached_job_data env59 "somejob" = .ok (some (.jarr [.jobj [("ID", .jstr "1")]])) ∧
    cacheGet env61.cache (safe_job_name "somejob") = some cacheEntryT ∧
    load_cached_job_data env61 "somejob" = .ok none := by
  refine ⟨?_, rfl, rfl, rfl⟩
  simp [is_cache_valid]

theorem C4_staleness_amended_witness :
    is_cache_valid (some ⟨100, .malformed⟩) 200 1 = true :=
  (C4_staleness_amended ⟨100, .malformed⟩ 200 1).1.mpr (by decide)

/-- C5: the time-window check returns false when the start string is missing
or unparseable, and otherwise is true exactly when
`started ≥ now - hoursBack` hours; the lower bound is inclusive: for
hoursBack = 12 and now = 2025-10-21T12:00:00Z, a build started exactly at
2025-10-21T00:00:00Z is included and one started at 2025-10-20T23:59:59Z is
excluded. -/
theorem C5_time_window_inclusive (s : String) (hours_back now : Int) :
    (parse_job_start_time s = none → is_within_time_window s hours_back now = false) ∧
    (∀ t, parse_job_start_time s = some t →
      (is_within_time_window s hours_back now = true ↔ now - hours_back * 3600 ≤ t)) ∧
    is_within_time_window "2025-10-21T00:00:00Z" 12 1761048000 = true ∧
    is_within_time_window "2025-10-20T23:59:59Z" 12 1761048000 = false := by
  refine ⟨?_, ?_, rfl, rfl⟩
  · intro h
    unfold is_within_time_window
    split
    · rfl
    · simp [h]
  · intro t ht
    have hs1 : s ≠ "" := by
      intro hcon
      rw [hcon, (rfl : parse_job_start_time "" = none)] at ht
      cases ht
    have hs2 : s ≠ "Unknown" := by
      intro hcon
      rw [hcon, (rfl : parse_job_start_time "Unknown" = none)] at ht
      cases ht
    unfold is_within_time_window
    rw [if_neg (by simp [hs1, hs2])]
    rw [ht]
    simp

theorem C5_time_window_inclusive_witness :
    parse_job_start_time "2025-10-21T00:31:08Z" = some 1761006668 ∧
    is_within_time_window "2025-10-21T00:31:08Z" 12 1761048000 = true :=
  ⟨rfl, ((C5_time_window_inclusive "2025-10-21T00:31:08Z" 12 1761048000).2.1
      1761006668 rfl).mpr (by decide)⟩

/-- C6 counterexample: the claim's example URL
`https://gateway.example/gcs/bucket/logs/job/123/` contains `/gcs/` but not
the literal gateway segment `gcsweb-ci` required by the code, so the
conversion returns None (unresolved) instead of the claimed
`storage://bucket/logs/job/123`. -/
theorem C6_gateway_example_counterexample :
    convert_artifacts_url_to_gcs_path "https://gateway.example/gcs/bucket/logs/job/123/" = none ∧
    pyContains "https://gateway.example/gcs/bucket/logs/job/123/" "/gcs/" = true :=
  ⟨rfl, rfl⟩

/-- C6 amended: the conversion recognizes exactly the URLs containing both
the literal gateway segment `gcsweb-ci` and `/gcs/`; it rewrites everything
after the first `/gcs/`, trailing slashes stripped, into a `gs://` storage
path (e.g. `https://gcsweb-ci.apps.ci.l2s4.p1.openshiftapps.com/gcs/bucket/logs/job/123/`
becomes `gs://bucket/logs/job/123`); a URL lacking `/gcs/` or lacking
`gcsweb-ci` — such as the claim's `https://gateway.example/...` — is
unresolved. -/
theorem C6_storage_path_amended (u : String) :
    convert_artifacts_url_to_gcs_path
        "https://gcsweb-ci.apps.ci.l2s4.p1.openshiftapps.com/gcs/bucket/logs/job/123/"
      = some "gs://bucket/logs/job/123" ∧
    (pyContains u "/gcs/" = false → convert_artifacts_url_to_gcs_path u = none) ∧
    (pyContains u "gcsweb-ci" = false → convert_artifacts_url_to_gcs_path u = none) := by
  refine ⟨rfl, ?_, ?_⟩ <;> intro h <;> simp [convert_artifacts_url_to_gcs_path, h]

theorem C6_storage_path_amended_witness :
    pyContains "https://example.com/artifacts/" "/gcs/" = false ∧
    convert_artifacts_url_to_gcs_path "https://example.com/artifacts/" = none :=
  ⟨rfl, (C6_storage_path_amended "https://example.com/artifacts/").2.1 rfl⟩

/-- A page embedding exactly the build record of the round-trip test. -/
def samplePage : String :=
  "<html><body><script>var allBuilds = [\x7b\"ID\":\"1\",\"Result\":\"FAILURE\",\"Started\":\"2025-10-21T00:31:08Z\"\x7d];</script></body></html>"

/-- C7: extraction round-trip — on a page embedding
`var allBuilds = [...];` with one failed build, `extract_builds_json` yields
exactly that one record (result FAILURE, `Started` parsing to the instant
2025-10-21T00:31:08Z = 1761006668); and on every page where the `allBuilds`
pattern has no match, extraction fails fatally (`sys.exit(1)`), never
returning a silent empty sequence. -/
theorem C7_extraction_roundtrip (page : String) :
    extract_builds_json samplePage
      = .ok (.jarr [.jobj [("ID", .jstr "1"), ("Result", .jstr "FAILURE"),
                           ("Started", .jstr "2025-10-21T00:31:08Z")]]) ∧
    parse_job_start_time "2025-10-21T00:31:08Z" = some 1761006668 ∧
    (searchAllBuilds page.toList = none →
      extract_builds_json page = .error (.systemExit 1)) := by
  refine ⟨rfl, rfl, ?_⟩
  intro h
  unfold extract_builds_json
  rw [h]

theorem C7_extraction_roundtrip_witness :
    searchAllBuilds "<html><body>empty page</body></html>".toList = none ∧
    extract_builds_json "<html><body>empty page</body></html>" = .error (.systemExit 1) :=
  ⟨rfl, (C7_extraction_roundtrip "<html><body>empty page</body></html>").2.2 rfl⟩

/-- C2: on any build list, the per-job summarize selects exactly the records
whose `Result` string equals `"FAILURE"` (the loop is the filter by that
predicate, so no other status string is counted), filters that subset by the
time window preserving the original order (the window loop is a filter, hence
a sublist), sets `total_failures` to the size of the in-window subset and
`failure_details` to its projection, and — when the subset is nonempty —
takes its first element as the latest failure, carrying that element's
identifiers and its related pull-request numbers. -/
theorem C2_summarize_selection (env : Env) (job_name : String) (hours_back : Int)
    (bl : List BuildDict) (lopt : Option LatestFailedInfo)
    (hl : latest_failed_calc env
        (filter_failed_in_window env.now hours_back (get_failed_jobs bl)) = .ok lopt) :
    get_failed_jobs bl = bl.filter isFailureResult ∧
    filter_failed_in_window env.now hours_back (get_failed_jobs bl)
      = (get_failed_jobs bl).filter (in_window_pred env.now hours_back) ∧
    List.Sublist (filter_failed_in_window env.now hours_back (get_failed_jobs bl))
      (get_failed_jobs bl) ∧
    summarize_builds env job_name hours_back (.jarr (bl.map JValue.jobj))
      = .ok ⟨job_name,
             (filter_failed_in_window env.now hours_back (get_failed_jobs bl)).length,
             lopt,
             (filter_failed_in_window env.now hours_back (get_failed_jobs bl)).map mk_fail_detail⟩ ∧
    (∀ x xs, filter_failed_in_window env.now hours_back (get_failed_jobs bl) = x :: xs →
      ∃ info, lopt = some info ∧
        info.build_id = (lookupLast x "ID").getD (.jstr "Unknown") ∧
        info.started = (lookupLast x "Started").getD (.jstr "Unknown") ∧
        ∀ prs, latest_pr_numbers x = .ok prs → info.pr_numbers = prs) := by
  refine ⟨get_failed_jobs_eq_filter bl, filter_failed_eq_filter _ _ _, ?_, ?_, ?_⟩
  · rw [filter_failed_eq_filter]
    exact List.filter_sublist _
  · simp only [summarize_builds, asBuildList_jarr_map, hl]
  · intro x xs hw
    rw [hw] at hl
    simp only [latest_failed_calc] at hl
    cases hsp : spyglass_calc env x with
    | error e => rw [hsp] at hl; cases hl
    | ok p =>
      obtain ⟨au, su⟩ := p
      rw [hsp] at hl
      cases hpr : latest_pr_numbers x with
      | error e => rw [hpr] at hl; cases hl
      | ok prs0 =>
        rw [hpr] at hl
        injection hl with h2
        subst h2
        refine ⟨_, rfl, rfl, rfl, ?_⟩
        intro prs hprs
        cases hprs
        rfl

theorem C2_summarize_selection_witness :
    summarize_builds envOffline "wjob2" 12 (.jarr ([bFail, bPass, bOld].map JValue.jobj))
      = .ok ⟨"wjob2", 1,
          some ⟨.jstr "100", .jstr "2025-10-21T06:00:00Z", .jstr "Unknown",
                PROW_BASE_URL ++ "/view/gs/x/100", "", [.jnum 42], .jstr "FAILURE"⟩,
          [⟨.jstr "100", .jstr "2025-10-21T06:00:00Z", .jstr "Unknown", .jstr "FAILURE"⟩]⟩ :=
  (C2_summarize_selection envOffline "wjob2" 12 [bFail, bPass, bOld]
      (some ⟨.jstr "100", .jstr "2025-10-21T06:00:00Z", .jstr "Unknown",
             PROW_BASE_URL ++ "/view/gs/x/100", "", [.jnum 42], .jstr "FAILURE"⟩)
      rfl).2.2.2.1

/-- C3: the fetch phase of `count_failed_jobs_in_window` /
`get_latest_failed_job`: a valid readable cache entry is returned verbatim
(its stored `builds` list) with no network request and the cache unchanged;
on a cache miss, or with `use_cache = false`, the dashboard page is fetched
and extracted, and the result is written to the cache exactly when
`use_cache` is true (otherwise the cache is left unchanged); the written
entry carries the extracted builds under a fresh timestamp. -/
theorem C3_fetch_cache_policy (env : Env) (job_name : String) (use_cache : Bool)
    (f : CacheFile) (fields : List (String × JValue)) (bs : List JValue)
    (html : String) (v : JValue) :
    (cacheGet env.cache (safe_job_name job_name) = some f →
      env.now - f.mtime < 3600 →
      f.content = .value (.jobj fields) →
      (lookupLast fields "builds").getD (.jarr []) = .jarr bs →
      fetch_builds_phase env job_name true
        = .ok (.jarr bs, env.cache, [])) ∧
    ((use_cache = false ∨ load_cached_job_data env job_name = .ok none) →
      env.http (job_url job_name) = some html →
      extract_builds_json html = .ok v →
      fetch_builds_phase env job_name use_cache
        = .ok (v, (if use_cache then save_job_data_to_cache env job_name v else env.cache),
               [job_url job_name])) ∧
    cacheGet (save_job_data_to_cache env job_name v) (safe_job_name job_name)
      = some ⟨env.now, .value (.jobj [("job_name", .jstr job_name),
              ("cached_at", .jnum env.now), ("builds", v)])⟩ := by
  refine ⟨?_, ?_, cacheGet_cachePutEntry _ _ _⟩
  · intro hc hage hcont hbl
    have hv : is_cache_valid (some f) env.now 1 = true := by
      simp only [is_cache_valid, decide_eq_true_eq]
      omega
    have hload : load_cached_job_data env job_name = .ok (some (.jarr bs)) := by
      unfold load_cached_job_data
      rw [hc, if_pos hv]
      simp only [hcont, hbl]
    unfold fetch_builds_phase
    rw [if_pos rfl, hload]
  · intro hmiss hhttp hex
    have hload : (if use_cache then load_cached_job_data env job_name
        else Except.ok none) = Except.ok none := by
      cases use_cache with
      | false => rfl
      | true =>
        rcases hmiss with hmiss | hmiss
        · cases hmiss
        · simpa using hmiss
    unfold fetch_builds_phase
    rw [hload]
    simp only [fetch_job_history, hhttp, hex]

/-- Environment holding a fresh, readable cache entry for `myjob`. -/
def envHit : Env :=
  { now := 1000, http := fun _ => none, extractArtifacts := fun _ => none,
    cache := [("myjob", ⟨500, .value (.jobj
      [("builds", .jarr [.jobj [("ID", .jstr "7")]])])⟩)] }

theorem C3_fetch_cache_policy_witness :
    fetch_builds_phase envHit "myjob" true
      = .ok (.jarr [.jobj [("ID", .jstr "7")]], envHit.cache, []) :=
  (C3_fetch_cache_policy envHit "myjob" true
      ⟨500, .value (.jobj [("builds", .jarr [.jobj [("ID", .jstr "7")]])])⟩
      [("builds", .jarr [.jobj [("ID", .jstr "7")]])] [.jobj [("ID", .jstr "7")]]
      "" .jnull).1
    rfl (by decide) rfl rfl

/-- C8: a cache entry whose file exists (of any age) but is unreadable or not
parseable is treated as a miss: the read returns None without raising any
error to the caller, and the fetch phase proceeds to the network fetch of the
dashboard page, overwriting the cache with the fresh result. -/
theorem C8_corrupt_cache_is_miss (env : Env) (job_name : String) (f : CacheFile)
    (html : String) (v : JValue)
    (hc : cacheGet env.cache (safe_job_name job_name) = some f)
    (hcor : f.content = .unreadable ∨ f.content = .malformed)
    (hhttp : env.http (job_url job_name) = some html)
    (hex : extract_builds_json html = .ok v) :
    load_cached_job_data env job_name = .ok none ∧
    fetch_builds_phase env job_name true
      = .ok (v, save_job_data_to_cache env job_name v, [job_url job_name]) := by
  have hload : load_cached_job_data env job_name = .ok none := by
    unfold load_cached_job_data
    rw [hc]
    cases hv : is_cache_valid (some f) env.now 1 with
    | false => rw [if_neg (by simp [hv])]
    | true =>
      rw [if_pos hv]
      rcases hcor with hcor | hcor <;> simp only [hcor]
  refine ⟨hload, ?_⟩
  unfold fetch_builds_phase
  rw [if_pos rfl, hload]
  simp [fetch_job_history, hhttp, hex]

/-- Environment with a fresh but unreadable cache entry for `cjob`. -/
def envCorrupt : Env :=
  { now := 50,
    http := fun u => if u = job_url "cjob" then some pageEmptyBuilds else none,
    extractArtifacts := fun _ => none,
    cache := [("cjob", ⟨0, .unreadable⟩)] }

theorem C8_corrupt_cache_is_miss_witness :
    load_cached_job_data envCorrupt "cjob" = .ok none ∧
    fetch_builds_phase envCorrupt "cjob" true
      = .ok (.jarr [], save_job_data_to_cache envCorrupt "cjob" (.jarr []),
             [job_url "cjob"]) :=
  C8_corrupt_cache_is_miss envCorrupt "cjob" ⟨0, .unreadable⟩ pageEmptyBuilds (.jarr [])
    rfl (Or.inl rfl) rfl rfl

/-- C9: when the latest in-window failure has a (truthy) detail link and the
artifact-detail fetch fails (network error or non-2xx), summarize still
returns the summary with the correct failure count and a latest failure whose
artifacts URL is the unresolved empty string — the fetch failure is
downgraded inside `fetch_spyglass_page` and never raised to the caller. -/
theorem C9_artifact_fetch_degrades (env : Env) (job_name : String) (hours_back : Int)
    (bl : List BuildDict) (x : BuildDict) (xs : List BuildDict) (s : String)
    (prs : List JValue)
    (hw : filter_failed_in_window env.now hours_back (get_failed_jobs bl) = x :: xs)
    (hs : (lookupLast x "SpyglassLink").getD (.jstr "") = .jstr s)
    (hne : s ≠ "")
    (hfail : env.http (PROW_BASE_URL ++ s) = none)
    (hprs : latest_pr_numbers x = .ok prs) :
    summarize_builds env job_name hours_back (.jarr (bl.map JValue.jobj))
      = .ok ⟨job_name, (x :: xs).length,
          some ⟨(lookupLast x "ID").getD (.jstr "Unknown"),
                (lookupLast x "Started").getD (.jstr "Unknown"),
                (lookupLast x "Duration").getD (.jstr "Unknown"),
                PROW_BASE_URL ++ s, "", prs,
                (lookupLast x "Result").getD (.jstr "Unknown")⟩,
          (x :: xs).map mk_fail_detail⟩ := by
  have hsp : spyglass_calc env x = .ok ("", PROW_BASE_URL ++ s) := by
    unfold spyglass_calc
    rw [hs]
    simp [hne, fetch_spyglass_page, hfail]
  simp only [summarize_builds, asBuildList_jarr_map]
  rw [hw]
  simp only [latest_failed_calc, hsp, hprs]

theorem C9_artifact_fetch_degrades_witness :
    summarize_builds envOffline "vjob" 12 (.jarr ([bFail].map JValue.jobj))
      = .ok ⟨"vjob", 1,
          some ⟨.jstr "100", .jstr "2025-10-21T06:00:00Z", .jstr "Unknown",
                PROW_BASE_URL ++ "/view/gs/x/100", "", [.jnum 42], .jstr "FAILURE"⟩,
          [⟨.jstr "100", .jstr "2025-10-21T06:00:00Z", .jstr "Unknown", .jstr "FAILURE"⟩]⟩ :=
  C9_artifact_fetch_degrades envOffline "vjob" 12 [bFail] bFail [] "/view/gs/x/100"
    [.jnum 42] rfl rfl (by decide) rfl rfl

/-- The structural invariant of a per-job summary. -/
def summary_invariant (s : Summary) : Prop :=
  s.total_failures = s.failure_details.length ∧
    (s.latest_failed.isSome = true ↔ 0 < s.total_failures)

/-- A successful summarize always satisfies the invariant. -/
theorem summarize_builds_invariant (env : Env) (job_name : String) (hours_back : Int)
    (builds : JValue) (s : Summary)
    (h : summarize_builds env job_name hours_back builds = .ok s) :
    summary_invariant s := by
  cases hb : asBuildList builds with
  | error e =>
    simp only [summarize_builds, hb] at h
    exact Except.noConfusion h
  | ok bl =>
    simp only [summarize_builds, hb] at h
    cases hl : latest_failed_calc env
        (filter_failed_in_window env.now hours_back (get_failed_jobs bl)) with
    | error e =>
      rw [hl] at h
      exact Except.noConfusion h
    | ok lopt =>
      rw [hl] at h
      injection h with h2
      subst h2
      constructor
      · simp
      · rw [latest_failed_calc_isSome env _ lopt hl]
        simp only [← List.length_pos_iff_ne_nil]

/-- C10: for every job name, window, and cache mode, a summary returned by
`count_failed_jobs_in_window` satisfies `total_failures` =
`|failure_details|` and has a latest failure exactly when `total_failures` is
positive; the degraded `except Exception` path returns the zero summary, which
satisfies the same invariant. -/
theorem C10_summary_invariant (env : Env) (job_name : String) (hours_back : Int)
    (use_cache : Bool) (s : Summary) (c : CacheMap)
    (h : count_failed_jobs_in_window env job_name hours_back use_cache = .ok (s, c)) :
    summary_invariant s := by
  cases hf : fetch_builds_phase env job_name use_cache with
  | error e =>
    cases e with
    | systemExit c2 =>
      simp only [count_failed_jobs_in_window, hf] at h
      exact Except.noConfusion h
    | exc m =>
      simp only [count_failed_jobs_in_window, hf] at h
      injection h with h2
      have hs : s = zero_summary job_name := congrArg Prod.fst h2.symm
      rw [hs]
      exact ⟨rfl, by simp [zero_summary]⟩
  | ok t =>
    obtain ⟨builds, cache2, tr⟩ := t
    simp only [count_failed_jobs_in_window, hf] at h
    cases hs2 : summarize_builds env job_name hours_back builds with
    | error e =>
      cases e with
      | systemExit c2 =>
        rw [hs2] at h
        exact Except.noConfusion h
      | exc m =>
        rw [hs2] at h
        injection h with h2
        have hs : s = zero_summary job_name := congrArg Prod.fst h2.symm
        rw [hs]
        exact ⟨rfl, by simp [zero_summary]⟩
    | ok s2 =>
      rw [hs2] at h
      injection h with h2
      have hs : s = s2 := congrArg Prod.fst h2.symm
      rw [hs]
      exact summarize_builds_invariant env job_name hours_back builds s2 hs2

/-- Environment serving one failed build for `wjob`. -/
def envOneFailure : Env :=
  { now := 1761048000,
    http := fun u => if u = job_url "wjob" then some pageOneFailure else none,
    extractArtifacts := fun _ => none,
    cache := [] }

theorem C10_summary_invariant_witness :
    summary_invariant ⟨"wjob", 1,
      some ⟨.jstr "9", .jstr "2025-10-21T06:00:00Z", .jstr "Unknown", "", "", [],
            .jstr "FAILURE"⟩,
      [⟨.jstr "9", .jstr "2025-10-21T06:00:00Z", .jstr "Unknown", .jstr "FAILURE"⟩]⟩ :=
  C10_summary_invariant envOneFailure "wjob" 12 false _ [] rfl
